import Mathlib

/-!
Shallow embedding of `common/apiClient.js` from the netpad-extensions
repository: the NetPad HTTP client wrapper with retry/backoff and
error-normalization semantics.

Modelling conventions:
- JavaScript truthiness in the `a || b` fallback chains is modelled by
  `jsOrStr` / `jsOrNat` (empty string, 0, and `undefined`/`none` are falsy).
- The axios transport is abstracted as a function
  `net : Nat → Request → Except AxiosError String` giving the outcome of
  the i-th attempt of a request (the response interceptor re-issues the
  same request config, so every attempt carries the same `Request`).
- The response interceptor's retry logic (the `__retryCount` counter
  stashed on the request config, the `shouldRetry` classification, the
  `Math.pow(2, retryCount) * 1000` backoff sleep) is embedded as the
  recursive function `interceptLoop`, which records the result, the total
  number of attempts, and the list of backoff delays inserted.
- Thrown JS errors become `Except.error`; the mutation of `this.config`
  and `this.client` in `updateConfig` is modelled by returning the
  post-call object state together with the optionally thrown error.
-/

/-- JavaScript `a || b` on an optional string: `undefined` and `""` are
falsy, so they fall through to `b`. -/
def jsOrStr : Option String → String → String
  | some s, b => if s = "" then b else s
  | none, b => b

/-- JavaScript `a || b` on an optional number: `undefined`, `NaN` (a failed
`parseInt`, modelled as `none`) and `0` are falsy, so they fall through. -/
def jsOrNat : Option Nat → Nat → Nat
  | some n, b => if n = 0 then b else n
  | none, b => b

/-- Constructor options object (`options` parameter of the
`NetPadApiClient` constructor); absent keys are `none`. -/
structure Options where
  apiUrl : Option String := none
  apiKey : Option String := none
  timeout : Option Nat := none
  retries : Option Nat := none
  enableLogging : Option Bool := none
deriving DecidableEq

/-- The process environment variables read by the constructor.
`NETPAD_TIMEOUT` and `NETPAD_RETRIES` are stored already `parseInt`-ed:
`none` stands for an unset variable or a parse failure (`NaN`). -/
structure Env where
  NETPAD_API_URL : Option String := none
  NETPAD_API_KEY : Option String := none
  NETPAD_TIMEOUT : Option Nat := none
  NETPAD_RETRIES : Option Nat := none
deriving DecidableEq

/-- The resolved `this.config` object of the client. -/
structure Config where
  baseURL : String
  apiKey : String
  timeout : Nat
  retries : Nat
  enableLogging : Bool
deriving DecidableEq

/-- Resolution of `this.config` in the constructor:
each field is an `options.x || process.env.Y || default` fallback chain,
except `enableLogging`, which is `options.enableLogging !== false`. -/
def resolveConfig (opts : Options) (env : Env) : Config :=
  { baseURL := jsOrStr opts.apiUrl (jsOrStr env.NETPAD_API_URL "https://netpad.io/api/mcp")
    apiKey := jsOrStr opts.apiKey (jsOrStr env.NETPAD_API_KEY "")
    timeout := jsOrNat opts.timeout (jsOrNat env.NETPAD_TIMEOUT 30000)
    retries := jsOrNat opts.retries (jsOrNat env.NETPAD_RETRIES 3)
    enableLogging := opts.enableLogging != some false }

/-- The axios instance created by `axios.create` in the client's
`initialize` method: the transport handle bound to the base URL, timeout
and headers. -/
structure Transport where
  baseURL : String
  timeout : Nat
  contentType : String
  xApiKey : String
  userAgent : String
deriving DecidableEq

/-- The error message thrown by `initialize` when the resolved API key is
empty. -/
def apiKeyRequiredMsg : String :=
  "NetPad API key is required. Set NETPAD_API_KEY environment variable or pass apiKey option."

/-- The client's `initialize` method: throws if `this.config.apiKey` is
empty, otherwise builds the axios transport handle from the config. -/
def initClient (c : Config) : Except String Transport :=
  if c.apiKey = "" then .error apiKeyRequiredMsg
  else .ok { baseURL := c.baseURL, timeout := c.timeout,
             contentType := "application/json", xApiKey := c.apiKey,
             userAgent := "NetPad-Extension/1.0.0" }

/-- Object state of a `NetPadApiClient` instance: `this.config` and
`this.client` (the transport handle, `none` until built). -/
structure NetPadApiClient where
  config : Config
  client : Option Transport
deriving DecidableEq

/-- The `NetPadApiClient` constructor: resolves the config, then calls
`initialize`, whose thrown error propagates out of `new`. -/
def mkClient (opts : Options) (env : Env) : Except String NetPadApiClient :=
  let cfg := resolveConfig opts env
  match initClient cfg with
  | .error e => .error e
  | .ok t => .ok { config := cfg, client := some t }

/-- The `createNetPadClient` factory function: just `new NetPadApiClient(options)`. -/
def createNetPadClient (opts : Options) (env : Env) : Except String NetPadApiClient :=
  mkClient opts env

/-- An axios-level failure, as inspected by `shouldRetry` and
`enhanceError`: a response with an error status, a request that got no
response (network error), or a local failure before any request was made.
`dataMsg` models `error.response.data?.message` and `data` the opaque
response body. -/
inductive AxiosError where
  | response (status : Nat) (statusText : String) (dataMsg : Option String) (data : String)
  | request (msg : String)
  | localErr (msg : String)
deriving DecidableEq

/-- The client's `shouldRetry`: no response received is always retryable;
otherwise retry exactly when `status >= 500 || status === 429`. -/
def shouldRetry : AxiosError → Bool
  | .response s _ _ _ => decide (500 ≤ s) || s == 429
  | .request _ => true
  | .localErr _ => true

/-- The normalized error shape produced by `enhanceError`. -/
structure NormalizedError where
  message : String
  status : Option Nat
  data : Option String
  originalError : AxiosError
deriving DecidableEq

/-- The client's `enhanceError`: builds the NormalizedError message for
the three cases (response received / no response / local failure), sets
`status` and `data` only when a response was received, and always retains
the original failure. -/
def enhanceError (e : AxiosError) : NormalizedError :=
  match e with
  | .response s st dm d =>
      { message := "NetPad API Error (" ++ toString s ++ "): " ++ jsOrStr dm st
        status := some s, data := some d, originalError := e }
  | .request _ =>
      { message := "NetPad API Error: No response received (network error)"
        status := none, data := none, originalError := e }
  | .localErr m =>
      { message := "NetPad API Error: " ++ m
        status := none, data := none, originalError := e }

/-- An HTTP request as built by the client's public operations. -/
inductive JsonVal where
  | str (s : String)
  | nullJ
  | obj (fields : List (String × JsonVal))

/-- Request config: method, URL path, optional JSON body. -/
structure Request where
  method : String
  url : String
  body : Option JsonVal

/-- Outcome of one whole logical request: the final result, the total
number of attempts made, and the backoff delays (in ms) inserted between
attempts, in order. -/
structure RunResult where
  result : Except NormalizedError String
  attempts : Nat
  delays : List Nat

/-- The response interceptor's retry loop. `R` is `this.config.retries`,
`remote i` the outcome of the i-th attempt, `a` the index of the current
attempt and `c` the current `config.__retryCount` (0 on the first
attempt). On failure, if `__retryCount < retries` and the error is
retryable, the counter is incremented, a `2^__retryCount * 1000` ms
backoff sleep is inserted and the request is re-issued; otherwise the
enhanced error is rejected to the caller. -/
def interceptLoop (R : Nat) (remote : Nat → Except AxiosError String)
    (a c : Nat) : RunResult :=
  match remote a with
  | .ok p => { result := .ok p, attempts := 1, delays := [] }
  | .error e =>
    if h : c < R then
      if shouldRetry e then
        let rest := interceptLoop R remote (a + 1) (c + 1)
        { result := rest.result, attempts := rest.attempts + 1,
          delays := (2 ^ (c + 1) * 1000) :: rest.delays }
      else { result := .error (enhanceError e), attempts := 1, delays := [] }
    else { result := .error (enhanceError e), attempts := 1, delays := [] }
termination_by R - c
decreasing_by omega

/-- One logical request through the interceptor pipeline: every attempt
re-issues the same request config, starting with `__retryCount = 0`. -/
def sendVia (R : Nat) (net : Nat → Request → Except AxiosError String)
    (req : Request) : RunResult :=
  interceptLoop R (fun i => net i req) 0 0

/-- The client's `executeCommand(type, input)`: `POST /command` with body
`{type, input}` through the retry pipeline. -/
def executeCommandOp (R : Nat) (net : Nat → Request → Except AxiosError String)
    (ty : String) (input : JsonVal) : RunResult :=
  sendVia R net { method := "POST", url := "/command",
                  body := some (.obj [("type", .str ty), ("input", input)]) }

/-- The client's `getTools()`: `GET /tools` through the retry pipeline. -/
def getToolsOp (R : Nat) (net : Nat → Request → Except AxiosError String) : RunResult :=
  sendVia R net { method := "GET", url := "/tools", body := none }

/-- The client's `executeTool(toolName, parameters)`: `POST /tools/execute`
with body `{tool, parameters}` through the retry pipeline. -/
def executeToolOp (R : Nat) (net : Nat → Request → Except AxiosError String)
    (toolName : String) (parameters : List (String × JsonVal)) : RunResult :=
  sendVia R net { method := "POST", url := "/tools/execute",
                  body := some (.obj [("tool", .str toolName), ("parameters", .obj parameters)]) }

/-- The client's `healthCheck()`: `GET /health` through the retry pipeline. -/
def healthCheckOp (R : Nat) (net : Nat → Request → Except AxiosError String) : RunResult :=
  sendVia R net { method := "GET", url := "/health", body := none }

/-- The client's `analyzeCode(code, language, analysisType = 'summary',
options = {})`: delegates to
`executeCommand('code_analysis', {code, language, analysisType, ...options})`. -/
def analyzeCodeOp (R : Nat) (net : Nat → Request → Except AxiosError String)
    (code language : String) (analysisType : String := "summary")
    (options : List (String × JsonVal) := []) : RunResult :=
  executeCommandOp R net "code_analysis"
    (.obj ([("code", .str code), ("language", .str language),
            ("analysisType", .str analysisType)] ++ options))

/-- Result object of `testConnection()`. -/
structure TestResult where
  success : Bool
  message : String
  error : Option NormalizedError

/-- The client's `testConnection()`: awaits `healthCheck()` inside
`try/catch` and always resolves to a result object. -/
def testConnection (R : Nat) (net : Nat → Request → Except AxiosError String) : TestResult :=
  match (healthCheckOp R net).result with
  | .ok _ =>
      { success := true, message := "Connected to NetPad API successfully", error := none }
  | .error e =>
      { success := false, message := "Connection failed: " ++ e.message, error := some e }

/-- Partial configuration passed to `updateConfig`; keys absent from the
object are `none` and leave the merged field unchanged. -/
structure ConfigUpdate where
  baseURL : Option String := none
  apiKey : Option String := none
  timeout : Option Nat := none
  retries : Option Nat := none
  enableLogging : Option Bool := none
deriving DecidableEq

/-- The object spread `{...this.config, ...newConfig}`: keys present in
`newConfig` override the current config field-wise. -/
def mergeConfig (c : Config) (u : ConfigUpdate) : Config :=
  { baseURL := u.baseURL.getD c.baseURL
    apiKey := u.apiKey.getD c.apiKey
    timeout := u.timeout.getD c.timeout
    retries := u.retries.getD c.retries
    enableLogging := u.enableLogging.getD c.enableLogging }

/-- The client's `updateConfig(newConfig)`: first assigns
`this.config = {...this.config, ...newConfig}`, then calls `initialize`.
Returns the object state after the call together with the error thrown by
`initialize`, if any (on a throw, the config assignment has already
happened and `this.client` keeps its previous value). -/
def updateConfig (cl : NetPadApiClient) (u : ConfigUpdate) :
    NetPadApiClient × Option String :=
  let merged := mergeConfig cl.config u
  match initClient merged with
  | .ok t => ({ config := merged, client := some t }, none)
  | .error e => ({ config := merged, client := cl.client }, some e)

/-- Empty options object: `new NetPadApiClient()` with no arguments. -/
def emptyOptions : Options := {}

/-- The module-level `getDefaultClient()`: lazily constructs the shared
default client from the environment alone; a construction failure is
caught, logged and turned into `null`. Takes the current module-level
`defaultClient` variable and returns the value returned to the caller
together with the new value of the variable. -/
def getDefaultClient (st : Option NetPadApiClient) (env : Env) :
    Option NetPadApiClient × Option NetPadApiClient :=
  match st with
  | some c => (some c, some c)
  | none =>
    match mkClient emptyOptions env with
    | .ok c => (some c, some c)
    | .error _ => (none, none)

/-- The message of the error thrown by the module-level convenience
functions when no default client could be configured. -/
def notConfiguredMsg : String := "NetPad client not configured"

/-- The module-level `analyzeCode(code, language, analysisType = 'summary')`
convenience function: throws `'NetPad client not configured'` when the
default client is `null`, otherwise delegates to the client's method. -/
def analyzeCodeDefault (st : Option NetPadApiClient) (env : Env)
    (net : Nat → Request → Except AxiosError String)
    (code language : String) (analysisType : String := "summary") :
    Except String RunResult × Option NetPadApiClient :=
  let p := getDefaultClient st env
  match p.1 with
  | none => (.error notConfiguredMsg, p.2)
  | some c => (.ok (analyzeCodeOp c.config.retries net code language analysisType), p.2)

/-- The module-level `getTools()` convenience function. -/
def getToolsDefault (st : Option NetPadApiClient) (env : Env)
    (net : Nat → Request → Except AxiosError String) :
    Except String RunResult × Option NetPadApiClient :=
  let p := getDefaultClient st env
  match p.1 with
  | none => (.error notConfiguredMsg, p.2)
  | some c => (.ok (getToolsOp c.config.retries net), p.2)

/-- The module-level `executeTool(toolName, parameters)` convenience
function. -/
def executeToolDefault (st : Option NetPadApiClient) (env : Env)
    (net : Nat → Request → Except AxiosError String)
    (toolName : String) (parameters : List (String × JsonVal)) :
    Except String RunResult × Option NetPadApiClient :=
  let p := getDefaultClient st env
  match p.1 with
  | none => (.error notConfiguredMsg, p.2)
  | some c => (.ok (executeToolOp c.config.retries net toolName parameters), p.2)

/-- Status projection of a run result: `some s` when the run failed with a
NormalizedError whose `status` field is `s`. -/
def errStatus : Except NormalizedError String → Option (Option Nat)
  | .error ne => some ne.status
  | .ok _ => none

/-- Message projection of a failed run result. -/
def errMessage : Except NormalizedError String → Option String
  | .error ne => some ne.message
  | .ok _ => none

/-- Original-failure projection of a failed run result. -/
def errOriginal : Except NormalizedError String → Option AxiosError
  | .error ne => some ne.originalError
  | .ok _ => none

/-- Helper: with a remote that fails on every attempt with a retryable
error, the loop started at retry count `c` makes `R - c + 1` attempts,
inserts the backoff delays `2^(c+1)*1000, ..., 2^R*1000`, and rejects the
enhanced form of the last attempt's error. -/
theorem interceptLoop_allFail (f : Nat → AxiosError)
    (hre : ∀ i, shouldRetry (f i) = true) :
    ∀ n R a c, R - c = n →
      interceptLoop R (fun i => Except.error (f i)) a c =
        { result := .error (enhanceError (f (a + n))), attempts := n + 1,
          delays := (List.range' (c + 1) n).map (fun j => 2 ^ j * 1000) } := by
  intro n
  induction n with
  | zero =>
    intro R a c hRc
    rw [interceptLoop]
    have hcR : ¬ c < R := by omega
    simp [hcR]
  | succ n ih =>
    intro R a c hRc
    have hcR : c < R := by omega
    have hrest := ih R (a + 1) (c + 1) (by omega)
    rw [interceptLoop]
    simp only [hcR, dite_true, dif_pos, hre a, if_true, hrest]
    have h1 : a + 1 + n = a + (n + 1) := by omega
    rw [h1, List.range'_succ, List.map_cons]

/-- Helper: whatever the remote does, the delays recorded by the loop
started at retry count `c` are always an initial run `2^(c+1)*1000, ...,
2^(c+k)*1000` of the exponential backoff schedule. -/
theorem interceptLoop_delays_shape (R : Nat) (remote : Nat → Except AxiosError String) :
    ∀ n a c, R - c = n → ∃ k, (interceptLoop R remote a c).delays =
      (List.range' (c + 1) k).map (fun j => 2 ^ j * 1000) := by
  intro n
  induction n with
  | zero =>
    intro a c h
    rw [interceptLoop]
    split
    · exact ⟨0, rfl⟩
    · rw [dif_neg (by omega : ¬ c < R)]
      exact ⟨0, rfl⟩
  | succ n ih =>
    intro a c h
    rw [interceptLoop]
    split
    · exact ⟨0, rfl⟩
    · split
      · rename_i hlt
        split
        · obtain ⟨k, hk⟩ := ih (a + 1) (c + 1) (by omega)
          refine ⟨k + 1, ?_⟩
          simp only [hk, List.range'_succ, List.map_cons]
        · exact ⟨0, rfl⟩
      · exact ⟨0, rfl⟩

/-- Helper: one logical request against a remote that fails every attempt
with a retryable error makes `R + 1` attempts, inserts the delays
`2^1*1000, ..., 2^R*1000`, and rejects the enhanced form of the last
attempt's error. -/
theorem sendVia_allFail (R : Nat) (net : Nat → Request → Except AxiosError String)
    (req : Request) (f : Nat → AxiosError)
    (hnet : ∀ i, net i req = .error (f i))
    (hre : ∀ i, shouldRetry (f i) = true) :
    sendVia R net req =
      { result := .error (enhanceError (f R)), attempts := R + 1,
        delays := (List.range' 1 R).map (fun j => 2 ^ j * 1000) } := by
  have hfn : (fun i => net i req) = fun i => Except.error (f i) := funext hnet
  rw [sendVia, hfn, interceptLoop_allFail f hre (R - 0) R 0 0 rfl]
  simp

/-- C1: with resolved retry limit `R` and a remote whose every attempt of
every request responds with HTTP 429, every operation — an arbitrary
request through the pipeline, and in particular `executeCommand`,
`getTools`, `executeTool`, `healthCheck` and the delegating convenience
method `analyzeCode` — makes exactly `R + 1` total attempts, each failure
is classified retryable, and the operation fails with a NormalizedError
whose `status` field equals 429. -/
theorem always429_exhausts_retries (R : Nat)
    (net : Nat → Request → Except AxiosError String)
    (st : Nat → Request → String) (dm : Nat → Request → Option String)
    (d : Nat → Request → String)
    (hnet : ∀ i req, net i req = .error (.response 429 (st i req) (dm i req) (d i req)))
    (ty : String) (input : JsonVal) (toolName : String)
    (params : List (String × JsonVal)) (code language analysisType : String) :
    (∀ req, (sendVia R net req).attempts = R + 1
        ∧ errStatus (sendVia R net req).result = some (some 429))
    ∧ (∀ i req e, net i req = .error e → shouldRetry e = true)
    ∧ (executeCommandOp R net ty input).attempts = R + 1
    ∧ errStatus (executeCommandOp R net ty input).result = some (some 429)
    ∧ (getToolsOp R net).attempts = R + 1
    ∧ errStatus (getToolsOp R net).result = some (some 429)
    ∧ (executeToolOp R net toolName params).attempts = R + 1
    ∧ errStatus (executeToolOp R net toolName params).result = some (some 429)
    ∧ (healthCheckOp R net).attempts = R + 1
    ∧ errStatus (healthCheckOp R net).result = some (some 429)
    ∧ (analyzeCodeOp R net code language analysisType).attempts = R + 1
    ∧ errStatus (analyzeCodeOp R net code language analysisType).result = some (some 429) := by
  have key : ∀ req, (sendVia R net req).attempts = R + 1
      ∧ errStatus (sendVia R net req).result = some (some 429) := by
    intro req
    rw [sendVia_allFail R net req
      (fun i => .response 429 (st i req) (dm i req) (d i req))
      (fun i => hnet i req) (fun i => rfl)]
    exact ⟨rfl, rfl⟩
  have hre : ∀ i req e, net i req = .error e → shouldRetry e = true := by
    intro i req e h
    rw [hnet i req] at h
    cases h
    rfl
  exact ⟨key, hre, (key _).1, (key _).2, (key _).1, (key _).2, (key _).1, (key _).2,
    (key _).1, (key _).2, (key _).1, (key _).2⟩

/-- Witness for C1 at `R = 3` and a remote that always answers 429. -/
theorem always429_exhausts_retries_witness :
    (sendVia 3 (fun _ _ => .error (.response 429 "Too Many Requests" none "rate limited"))
        { method := "GET", url := "/health", body := none }).attempts = 3 + 1
    ∧ errStatus (sendVia 3 (fun _ _ => .error (.response 429 "Too Many Requests" none "rate limited"))
        { method := "GET", url := "/health", body := none }).result = some (some 429) :=
  (always429_exhausts_retries 3
    (fun _ _ => .error (.response 429 "Too Many Requests" none "rate limited"))
    (fun _ _ => "Too Many Requests") (fun _ _ => none) (fun _ _ => "rate limited")
    (fun _ _ => rfl) "t" .nullJ "tool" [] "c" "js" "summary").1
    { method := "GET", url := "/health", body := none }

/-- C2: in every retry sequence of every operation, the backoff delay
inserted before the k-th retry (k = i + 1 for the 0-based list index i) is
exactly `2^k * 1000` milliseconds: 2 seconds before the first retry, 4
seconds before the second, and so on. -/
theorem backoff_delay_formula (R : Nat)
    (net : Nat → Request → Except AxiosError String) (req : Request) (i : Nat)
    (h : i < (sendVia R net req).delays.length) :
    (sendVia R net req).delays.getD i 0 = 2 ^ (i + 1) * 1000 := by
  obtain ⟨k, hk⟩ := interceptLoop_delays_shape R (fun j => net j req) (R - 0) 0 0 rfl
  rw [sendVia] at h ⊢
  rw [hk] at h ⊢
  simp only [List.length_map, List.length_range'] at h
  simp [List.getD_eq_getElem?_getD, List.getElem?_map, List.getElem?_range', h,
    Nat.add_comm]

/-- Witness for C2: with three retries against an always-429 remote the
second recorded delay (index 1) is `2^2 * 1000` ms. -/
theorem backoff_delay_formula_witness :
    1 < (sendVia 3 (fun _ _ => .error (.response 429 "Too Many Requests" none "rl"))
        { method := "GET", url := "/tools", body := none }).delays.length
    ∧ (sendVia 3 (fun _ _ => .error (.response 429 "Too Many Requests" none "rl"))
        { method := "GET", url := "/tools", body := none }).delays.getD 1 0 = 2 ^ (1 + 1) * 1000 :=
  ⟨by simp [sendVia, interceptLoop, shouldRetry],
    backoff_delay_formula 3 (fun _ _ => .error (.response 429 "Too Many Requests" none "rl"))
      { method := "GET", url := "/tools", body := none } 1
      (by simp [sendVia, interceptLoop, shouldRetry])⟩

/-- C3: when the first attempt of a request draws a 4xx response other
than 429 (in particular 400), no retry and no backoff wait happen: every
operation makes exactly 1 attempt and fails immediately with a
NormalizedError whose `status` field equals that status. -/
theorem clientError_no_retry (R : Nat)
    (net : Nat → Request → Except AxiosError String) (s : Nat)
    (st0 : Request → String) (dm0 : Request → Option String) (d0 : Request → String)
    (hnet : ∀ req, net 0 req = .error (.response s (st0 req) (dm0 req) (d0 req)))
    (h4 : 400 ≤ s) (h5 : s < 500) (hne : s ≠ 429)
    (ty : String) (input : JsonVal) (toolName : String)
    (params : List (String × JsonVal)) (code language analysisType : String) :
    (∀ req, (sendVia R net req).attempts = 1 ∧ (sendVia R net req).delays = []
        ∧ errStatus (sendVia R net req).result = some (some s))
    ∧ (executeCommandOp R net ty input).attempts = 1
    ∧ errStatus (executeCommandOp R net ty input).result = some (some s)
    ∧ (getToolsOp R net).attempts = 1
    ∧ errStatus (getToolsOp R net).result = some (some s)
    ∧ (executeToolOp R net toolName params).attempts = 1
    ∧ errStatus (executeToolOp R net toolName params).result = some (some s)
    ∧ (healthCheckOp R net).attempts = 1
    ∧ errStatus (healthCheckOp R net).result = some (some s)
    ∧ (analyzeCodeOp R net code language analysisType).attempts = 1
    ∧ errStatus (analyzeCodeOp R net code language analysisType).result = some (some s) := by
  have hsr : ∀ req, shouldRetry (.response s (st0 req) (dm0 req) (d0 req)) = false := by
    intro req
    simp only [shouldRetry, Bool.or_eq_false_iff, decide_eq_false_iff_not,
      beq_eq_false_iff_ne, ne_eq]
    exact ⟨by omega, hne⟩
  have key : ∀ req, (sendVia R net req).attempts = 1 ∧ (sendVia R net req).delays = []
      ∧ errStatus (sendVia R net req).result = some (some s) := by
    intro req
    rw [sendVia, interceptLoop]
    simp only [hnet req]
    by_cases hR : 0 < R
    · simp only [hR, dif_pos, hsr req, if_false]
      exact ⟨rfl, rfl, rfl⟩
    · simp only [hR, dif_neg]
      exact ⟨rfl, rfl, rfl⟩
  exact ⟨key, (key _).1, (key _).2.2, (key _).1, (key _).2.2, (key _).1, (key _).2.2,
    (key _).1, (key _).2.2, (key _).1, (key _).2.2⟩

/-- Witness for C3 at status 400. -/
theorem clientError_no_retry_witness :
    (sendVia 3 (fun _ _ => .error (.response 400 "Bad Request" none "oops"))
        { method := "GET", url := "/health", body := none }).attempts = 1
    ∧ (sendVia 3 (fun _ _ => .error (.response 400 "Bad Request" none "oops"))
        { method := "GET", url := "/health", body := none }).delays = []
    ∧ errStatus (sendVia 3 (fun _ _ => .error (.response 400 "Bad Request" none "oops"))
        { method := "GET", url := "/health", body := none }).result = some (some 400) :=
  (clientError_no_retry 3 (fun _ _ => .error (.response 400 "Bad Request" none "oops")) 400
    (fun _ => "Bad Request") (fun _ => none) (fun _ => "oops")
    (fun _ => rfl) (by decide) (by decide) (by decide)
    "t" .nullJ "tool" [] "c" "js" "summary").1
    { method := "GET", url := "/health", body := none }

/-- C4: with a persistent network failure (no response on any attempt),
every operation retries `R` times (making `R + 1` attempts) and then fails
with a NormalizedError that has no status, whose message is exactly
"NetPad API Error: No response received (network error)", and that retains
the last underlying failure in `originalError`. -/
theorem networkFailure_exhausts_retries (R : Nat)
    (net : Nat → Request → Except AxiosError String) (msg : Nat → Request → String)
    (hnet : ∀ i req, net i req = .error (.request (msg i req)))
    (ty : String) (input : JsonVal) (toolName : String)
    (params : List (String × JsonVal)) (code language analysisType : String) :
    (∀ req, (sendVia R net req).attempts = R + 1
        ∧ errStatus (sendVia R net req).result = some none
        ∧ errMessage (sendVia R net req).result =
            some "NetPad API Error: No response received (network error)"
        ∧ errOriginal (sendVia R net req).result = some (.request (msg R req)))
    ∧ (executeCommandOp R net ty input).attempts = R + 1
    ∧ errStatus (executeCommandOp R net ty input).result = some none
    ∧ errMessage (executeCommandOp R net ty input).result =
        some "NetPad API Error: No response received (network error)"
    ∧ (getToolsOp R net).attempts = R + 1
    ∧ errStatus (getToolsOp R net).result = some none
    ∧ (executeToolOp R net toolName params).attempts = R + 1
    ∧ errStatus (executeToolOp R net toolName params).result = some none
    ∧ (healthCheckOp R net).attempts = R + 1
    ∧ errStatus (healthCheckOp R net).result = some none
    ∧ (analyzeCodeOp R net code language analysisType).attempts = R + 1
    ∧ errStatus (analyzeCodeOp R net code language analysisType).result = some none := by
  have key : ∀ req, (sendVia R net req).attempts = R + 1
      ∧ errStatus (sendVia R net req).result = some none
      ∧ errMessage (sendVia R net req).result =
          some "NetPad API Error: No response received (network error)"
      ∧ errOriginal (sendVia R net req).result = some (.request (msg R req)) := by
    intro req
    rw [sendVia_allFail R net req (fun i => .request (msg i req))
      (fun i => hnet i req) (fun i => rfl)]
    exact ⟨rfl, rfl, rfl, rfl⟩
  exact ⟨key, (key _).1, (key _).2.1, (key _).2.2.1, (key _).1, (key _).2.1,
    (key _).1, (key _).2.1, (key _).1, (key _).2.1, (key _).1, (key _).2.1⟩

/-- Witness for C4 at `R = 3` and a remote that never responds. -/
theorem networkFailure_exhausts_retries_witness :
    (sendVia 3 (fun _ _ => .error (.request "socket hang up"))
        { method := "GET", url := "/tools", body := none }).attempts = 3 + 1
    ∧ errStatus (sendVia 3 (fun _ _ => .error (.request "socket hang up"))
        { method := "GET", url := "/tools", body := none }).result = some none
    ∧ errMessage (sendVia 3 (fun _ _ => .error (.request "socket hang up"))
        { method := "GET", url := "/tools", body := none }).result =
        some "NetPad API Error: No response received (network error)"
    ∧ errOriginal (sendVia 3 (fun _ _ => .error (.request "socket hang up"))
        { method := "GET", url := "/tools", body := none }).result =
        some (.request "socket hang up") :=
  (networkFailure_exhausts_retries 3 (fun _ _ => .error (.request "socket hang up"))
    (fun _ _ => "socket hang up") (fun _ _ => rfl)
    "t" .nullJ "tool" [] "c" "js" "summary").1
    { method := "GET", url := "/tools", body := none }

/-- C5: whatever the other configuration fields are, constructing the
client — directly or through the factory — with a resolved apiKey that is
empty throws immediately with the API-key error, so no transport handle is
built and no client value exists on which a remote call could be made. -/
theorem emptyApiKey_construction_fails (opts : Options) (env : Env)
    (h : (resolveConfig opts env).apiKey = "") :
    mkClient opts env = .error apiKeyRequiredMsg
    ∧ createNetPadClient opts env = .error apiKeyRequiredMsg
    ∧ initClient (resolveConfig opts env) = .error apiKeyRequiredMsg := by
  have hinit : initClient (resolveConfig opts env) = .error apiKeyRequiredMsg := by
    rw [initClient, if_pos h]
  have hmk : mkClient opts env = .error apiKeyRequiredMsg := by
    rw [mkClient]
    simp only [hinit]
  exact ⟨hmk, hmk, hinit⟩

/-- Witness for C5: empty process environment and an options object that
supplies every field except the API key. -/
theorem emptyApiKey_construction_fails_witness :
    (resolveConfig
      { apiUrl := some "https://example.test/api", timeout := some 5000,
        retries := some 7, enableLogging := some false } {}).apiKey = ""
    ∧ mkClient
      { apiUrl := some "https://example.test/api", timeout := some 5000,
        retries := some 7, enableLogging := some false } {} = .error apiKeyRequiredMsg :=
  ⟨by decide,
    (emptyApiKey_construction_fails
      { apiUrl := some "https://example.test/api", timeout := some 5000,
        retries := some 7, enableLogging := some false } {}
      (by decide)).1⟩

/-- Counterexample to C6: an explicitly supplied `retries: 0` is falsy in
the constructor's `options.retries || parseInt(env) || 3` chain, so the
resolved retry limit is the hard default 3, not 0. -/
theorem retriesZero_falls_back_counterexample :
    ({ retries := some 0 } : Options).retries = some 0
    ∧ (resolveConfig { retries := some 0 } {}).retries = 3
    ∧ ¬ (resolveConfig { retries := some 0 } {}).retries = 0 := by
  refine ⟨rfl, ?_, ?_⟩ <;> decide

/-- C6 as amended: for every positive integer `n` explicitly supplied as
the retries override, the resolved retry limit equals `n`, regardless of
the environment; an explicit `0` is falsy in the `||` fallback chain and
resolves to the environment value or the hard default 3 instead. -/
theorem explicitRetries_positive_respected (opts : Options) (env : Env) (n : Nat)
    (hn : opts.retries = some n) (hpos : 0 < n) :
    (resolveConfig opts env).retries = n := by
  rw [resolveConfig]
  simp only [hn, jsOrNat]
  rw [if_neg (by omega)]

/-- Witness for the amended C6 at `n = 2` with a conflicting environment
value. -/
theorem explicitRetries_positive_respected_witness :
    ({ retries := some 2 } : Options).retries = some 2
    ∧ (resolveConfig { retries := some 2 } { NETPAD_RETRIES := some 9 }).retries = 2 :=
  ⟨rfl, explicitRetries_positive_respected { retries := some 2 }
    { NETPAD_RETRIES := some 9 } 2 rfl (by decide)⟩

/-- Counterexample to C7: `updateConfig` assigns the merged configuration
to `this.config` before `initialize` validates it; when the merged apiKey
is empty the call throws, yet the stored configuration has already been
replaced by the invalid merged one, so it is not left as it was before the
call. -/
theorem updateConfig_not_atomic_counterexample :
    (updateConfig
      { config := { baseURL := "https://netpad.io/api/mcp", apiKey := "key",
                    timeout := 30000, retries := 3, enableLogging := true },
        client := some { baseURL := "https://netpad.io/api/mcp", timeout := 30000,
                         contentType := "application/json", xApiKey := "key",
                         userAgent := "NetPad-Extension/1.0.0" } }
      { apiKey := some "" }).2 = some apiKeyRequiredMsg
    ∧ ¬ (updateConfig
      { config := { baseURL := "https://netpad.io/api/mcp", apiKey := "key",
                    timeout := 30000, retries := 3, enableLogging := true },
        client := some { baseURL := "https://netpad.io/api/mcp", timeout := 30000,
                         contentType := "application/json", xApiKey := "key",
                         userAgent := "NetPad-Extension/1.0.0" } }
      { apiKey := some "" }).1.config =
      { baseURL := "https://netpad.io/api/mcp", apiKey := "key",
        timeout := 30000, retries := 3, enableLogging := true } := by
  refine ⟨?_, ?_⟩ <;> decide

/-- C7 as amended: `updateConfig` merges the update into the stored
configuration and re-validates the apiKey invariant; if the merged apiKey
is empty the call throws, the stored configuration is nonetheless replaced
by the merged (invalid) one while the transport handle keeps its previous
value; if the merged apiKey is non-empty the call succeeds and the
transport is rebuilt from the merged configuration. -/
theorem updateConfig_merged_state (cl : NetPadApiClient) (u : ConfigUpdate) :
    ((mergeConfig cl.config u).apiKey = "" →
      updateConfig cl u =
        ({ config := mergeConfig cl.config u, client := cl.client }, some apiKeyRequiredMsg))
    ∧ ((mergeConfig cl.config u).apiKey ≠ "" →
      updateConfig cl u =
        ({ config := mergeConfig cl.config u,
           client := some { baseURL := (mergeConfig cl.config u).baseURL,
                            timeout := (mergeConfig cl.config u).timeout,
                            contentType := "application/json",
                            xApiKey := (mergeConfig cl.config u).apiKey,
                            userAgent := "NetPad-Extension/1.0.0" } }, none)) := by
  constructor
  · intro h
    simp [updateConfig, initClient, h]
  · intro h
    simp [updateConfig, initClient, h]

/-- Witness for the amended C7: one failing merge (apiKey emptied) and one
successful merge (timeout changed). -/
theorem updateConfig_merged_state_witness :
    (updateConfig
      { config := { baseURL := "b", apiKey := "key", timeout := 30000,
                    retries := 3, enableLogging := true },
        client := none }
      { apiKey := some "" }).2 = some apiKeyRequiredMsg
    ∧ (updateConfig
      { config := { baseURL := "b", apiKey := "key", timeout := 30000,
                    retries := 3, enableLogging := true },
        client := none }
      { timeout := some 5000 }) =
      ({ config := { baseURL := "b", apiKey := "key", timeout := 5000,
                     retries := 3, enableLogging := true },
         client := some { baseURL := "b", timeout := 5000,
                          contentType := "application/json", xApiKey := "key",
                          userAgent := "NetPad-Extension/1.0.0" } }, none) :=
  ⟨by
    rw [(updateConfig_merged_state
      { config := { baseURL := "b", apiKey := "key", timeout := 30000,
                    retries := 3, enableLogging := true },
        client := none }
      { apiKey := some "" }).1 (by decide)],
   by
    rw [(updateConfig_merged_state
      { config := { baseURL := "b", apiKey := "key", timeout := 30000,
                    retries := 3, enableLogging := true },
        client := none }
      { timeout := some 5000 }).2 (by decide)]
    decide⟩

/-- C8: `testConnection` is total for every injected outcome of
`healthCheck`: it always returns an object with a boolean `success` field —
`{success: true, message}` when the health check succeeds and
`{success: false, message, error}` carrying the NormalizedError otherwise;
no failure propagates as an exception. -/
theorem testConnection_never_throws (R : Nat)
    (net : Nat → Request → Except AxiosError String) :
    ((testConnection R net).success = true
      ∧ (testConnection R net).error = none
      ∧ (testConnection R net).message = "Connected to NetPad API successfully")
    ∨ ((testConnection R net).success = false
      ∧ ∃ e, (healthCheckOp R net).result = .error e
        ∧ (testConnection R net).message = "Connection failed: " ++ e.message
        ∧ (testConnection R net).error = some e) := by
  rw [testConnection]
  cases h : (healthCheckOp R net).result with
  | ok p => exact Or.inl ⟨rfl, rfl, rfl⟩
  | error e => exact Or.inr ⟨rfl, e, rfl, rfl, rfl⟩

/-- C9: `analyzeCode(code, language, analysisType)` builds exactly the
command payload `{code, language, analysisType}` and delegates to the very
same `executeCommand('code_analysis', ...)` pipeline — identical result,
attempts and delays, hence no additional side effects — and
`analysisType` defaults to `'summary'` when omitted. -/
theorem analyzeCode_delegates_to_executeCommand (R : Nat)
    (net : Nat → Request → Except AxiosError String)
    (code language analysisType : String) :
    analyzeCodeOp R net code language analysisType =
      executeCommandOp R net "code_analysis"
        (.obj [("code", .str code), ("language", .str language),
               ("analysisType", .str analysisType)])
    ∧ analyzeCodeOp R net code language =
      analyzeCodeOp R net code language "summary" := by
  exact ⟨rfl, rfl⟩

/-- C10: `getDefaultClient` never throws — when constructing the default
client fails it returns `null` (leaving the module variable `null`), and
on success it stores the instance so every subsequent call returns that
same client; the module-level convenience functions `analyzeCode`,
`getTools` and `executeTool` throw `'NetPad client not configured'`
exactly when the default client is `null`. -/
theorem defaultClient_lazy_and_null_safe (env : Env) (c : NetPadApiClient)
    (st : Option NetPadApiClient)
    (net : Nat → Request → Except AxiosError String)
    (code language analysisType toolName : String)
    (params : List (String × JsonVal)) :
    (∀ e, mkClient emptyOptions env = .error e → getDefaultClient none env = (none, none))
    ∧ (∀ c0, mkClient emptyOptions env = .ok c0 →
        getDefaultClient none env = (some c0, some c0))
    ∧ getDefaultClient (some c) env = (some c, some c)
    ∧ ((getDefaultClient st env).1 = none →
        analyzeCodeDefault st env net code language analysisType =
          (.error notConfiguredMsg, (getDefaultClient st env).2)
        ∧ getToolsDefault st env net = (.error notConfiguredMsg, (getDefaultClient st env).2)
        ∧ executeToolDefault st env net toolName params =
          (.error notConfiguredMsg, (getDefaultClient st env).2)) := by
  refine ⟨?_, ?_, rfl, ?_⟩
  · intro e he
    simp [getDefaultClient, he]
  · intro c0 hc0
    simp [getDefaultClient, hc0]
  · intro h
    exact ⟨by simp [analyzeCodeDefault, h], by simp [getToolsDefault, h],
      by simp [executeToolDefault, h]⟩

/-- Witness for C10: an empty environment makes the default client `null`
and the convenience functions throw; an environment carrying an API key
yields a cached client returned again by the next call. -/
theorem defaultClient_lazy_and_null_safe_witness :
    getDefaultClient none ({} : Env) = (none, none)
    ∧ getDefaultClient none { NETPAD_API_KEY := some "k" } =
      (some { config := { baseURL := "https://netpad.io/api/mcp", apiKey := "k",
                          timeout := 30000, retries := 3, enableLogging := true },
              client := some { baseURL := "https://netpad.io/api/mcp", timeout := 30000,
                               contentType := "application/json", xApiKey := "k",
                               userAgent := "NetPad-Extension/1.0.0" } },
       some { config := { baseURL := "https://netpad.io/api/mcp", apiKey := "k",
                          timeout := 30000, retries := 3, enableLogging := true },
              client := some { baseURL := "https://netpad.io/api/mcp", timeout := 30000,
                               contentType := "application/json", xApiKey := "k",
                               userAgent := "NetPad-Extension/1.0.0" } })
    ∧ getDefaultClient
        (some { config := { baseURL := "https://netpad.io/api/mcp", apiKey := "k",
                            timeout := 30000, retries := 3, enableLogging := true },
                client := some { baseURL := "https://netpad.io/api/mcp", timeout := 30000,
                                 contentType := "application/json", xApiKey := "k",
                                 userAgent := "NetPad-Extension/1.0.0" } })
        { NETPAD_API_KEY := some "k" } =
      (some { config := { baseURL := "https://netpad.io/api/mcp", apiKey := "k",
                          timeout := 30000, retries := 3, enableLogging := true },
              client := some { baseURL := "https://netpad.io/api/mcp", timeout := 30000,
                               contentType := "application/json", xApiKey := "k",
                               userAgent := "NetPad-Extension/1.0.0" } },
       some { config := { baseURL := "https://netpad.io/api/mcp", apiKey := "k",
                          timeout := 30000, retries := 3, enableLogging := true },
              client := some { baseURL := "https://netpad.io/api/mcp", timeout := 30000,
                               contentType := "application/json", xApiKey := "k",
                               userAgent := "NetPad-Extension/1.0.0" } })
    ∧ analyzeCodeDefault none ({} : Env) (fun _ _ => .error (.request "down"))
        "x" "js" "summary" =
      (.error notConfiguredMsg, (getDefaultClient none ({} : Env)).2) :=
  ⟨(defaultClient_lazy_and_null_safe {}
      { config := { baseURL := "b", apiKey := "k", timeout := 1, retries := 1,
                    enableLogging := true }, client := none }
      none (fun _ _ => .error (.request "down")) "x" "js" "summary" "t" []).1
      apiKeyRequiredMsg rfl,
   (defaultClient_lazy_and_null_safe { NETPAD_API_KEY := some "k" }
      { config := { baseURL := "b", apiKey := "k", timeout := 1, retries := 1,
                    enableLogging := true }, client := none }
      none (fun _ _ => .error (.request "down")) "x" "js" "summary" "t" []).2.1
      { config := { baseURL := "https://netpad.io/api/mcp", apiKey := "k",
                    timeout := 30000, retries := 3, enableLogging := true },
        client := some { baseURL := "https://netpad.io/api/mcp", timeout := 30000,
                         contentType := "application/json", xApiKey := "k",
                         userAgent := "NetPad-Extension/1.0.0" } } rfl,
   (defaultClient_lazy_and_null_safe { NETPAD_API_KEY := some "k" }
      { config := { baseURL := "https://netpad.io/api/mcp", apiKey := "k",
                    timeout := 30000, retries := 3, enableLogging := true },
        client := some { baseURL := "https://netpad.io/api/mcp", timeout := 30000,
                         contentType := "application/json", xApiKey := "k",
                         userAgent := "NetPad-Extension/1.0.0" } }
      none (fun _ _ => .error (.request "down")) "x" "js" "summary" "t" []).2.2.1,
   ((defaultClient_lazy_and_null_safe {}
      { config := { baseURL := "b", apiKey := "k", timeout := 1, retries := 1,
                    enableLogging := true }, client := none }
      none (fun _ _ => .error (.request "down")) "x" "js" "summary" "t" []).2.2.2
      (by decide)).1⟩
